import Mathlib

/-!
Shallow embedding of the partition replace-and-publish core of the repository
(`utils/duckdb_utils.py` together with the path helper `get_s3_path` from
`utils/config.py`).

Modelling choices:
* A pandas `DataFrame` is a rectangular table: a list of column names and a
  list of rows; cell values are kept abstract as strings.
* The S3 object store is a list of objects `(bucket, key, content)`; the
  content of a parquet object is modelled as the `DataFrame` it serializes.
* The Glue catalog is three association lists: database names, tables keyed
  by `(database, table)`, and partitions keyed by `(database, table, value)`.
* Python `try`/`except` blocks become `Except` matches; AWS semantic errors
  (`EntityNotFoundException`, `AlreadyExistsException`) and injected
  transient faults are the error values.  Fault injection is available for
  every Glue call site (the catalog step); S3 is not fault-injected, which
  matches the fault model of the spec's ordering property ("fails the
  catalog step but not the storage step").
* Prints become structured `Report` values; state-changing backend calls
  that succeed are recorded as `Event`s so that temporal ordering can be
  stated about a call's trace.
-/

/-- A rectangular in-memory dataset (pandas DataFrame): ordered column
names plus rows of cell values (cells kept abstract as strings). -/
structure DataFrame where
  columns : List String
  rows : List (List String)
deriving DecidableEq, Repr

/-- pandas `DataFrame.empty`: true when either axis has length zero. -/
def DataFrame.empty (d : DataFrame) : Bool :=
  d.rows.isEmpty || d.columns.isEmpty

/-- A schema argument: ordered mapping column name to DuckDB type string,
as the Python `Dict[str, str]` (insertion ordered). -/
abbrev Schema := List (String × String)

/-- Python truthiness of the optional schema argument (`if schema:`):
`None` and the empty dict are both falsy. -/
def schema_truthy : Option Schema → Bool
  | none => false
  | some s => !s.isEmpty

/-- Association-list lookup keyed by decidable equality, modelling
dictionary/catalog lookups.  First binding wins. -/
def alookup {α β : Type} [DecidableEq α] (k : α) : List (α × β) → Option β
  | [] => none
  | e :: es => if e.1 = k then some e.2 else alookup k es

/-- Remove every binding for a key from an association list. -/
def aremove {α β : Type} [DecidableEq α] (k : α) : List (α × β) → List (α × β)
  | [] => []
  | e :: es => if e.1 = k then aremove k es else e :: aremove k es

/-- One stored S3 object. -/
structure S3Object where
  bucket : String
  key : String
  content : DataFrame
deriving DecidableEq, Repr

/-- The S3 store: a list of objects (later writes are consed in front). -/
abbrev S3State := List S3Object

/-- String prefix test on character lists (S3 key `startswith` filter). -/
def chars_starts_with : List Char → List Char → Bool
  | [], _ => true
  | _ :: _, [] => false
  | a :: as, b :: bs => if a = b then chars_starts_with as bs else false

/-- `key` starts with `pfx` (the semantics of the S3 `Prefix` filter). -/
def str_starts_with (pfx key : String) : Bool :=
  chars_starts_with pfx.data key.data

/-- `list_objects_v2(Bucket, Prefix)`: the keys of all objects of the
bucket whose key starts with the given string. -/
def list_objects_v2 (bucket pfx : String) : S3State → List String
  | [] => []
  | o :: os =>
    if o.bucket = bucket ∧ str_starts_with pfx o.key then
      o.key :: list_objects_v2 bucket pfx os
    else
      list_objects_v2 bucket pfx os

/-- `delete_objects(Bucket, Delete)`: remove every object of the bucket
whose key is in the given list; absent keys are silently ignored. -/
def delete_objects (bucket : String) (keys : List String) : S3State → S3State
  | [] => []
  | o :: os =>
    if o.bucket = bucket ∧ o.key ∈ keys then
      delete_objects bucket keys os
    else
      o :: delete_objects bucket keys os

/-- Write (overwrite) the object at `(bucket, key)`. -/
def s3_write (bucket key : String) (content : DataFrame) (s : S3State) : S3State :=
  ⟨bucket, key, content⟩ :: delete_objects bucket [key] s

/-- Look up the content stored at `(bucket, key)`. -/
def s3_lookup (bucket key : String) : S3State → Option DataFrame
  | [] => none
  | o :: os => if o.bucket = bucket ∧ o.key = key then some o.content else s3_lookup bucket key os

/-- `utils/config.py get_s3_path`: build the table's canonical S3 root;
the bucket name (from the environment) is an explicit parameter. -/
def get_s3_path (bucket_name database table : String) : String :=
  "s3://" ++ bucket_name ++ "/" ++ database ++ "/" ++ table

/-- Python `replace("s3://", "")`: drop every (non-overlapping, left to
right) occurrence of the scheme from the character list. -/
def drop_s3_scheme : List Char → List Char
  | 's' :: '3' :: ':' :: '/' :: '/' :: rest => drop_s3_scheme rest
  | c :: rest => c :: drop_s3_scheme rest
  | [] => []

/-- Python `split("/", 1)`: the characters before the first slash, and the
remainder after it when a slash occurs. -/
def split_first_slash : List Char → List Char × Option (List Char)
  | [] => ([], none)
  | '/' :: rest => ([], some rest)
  | c :: rest =>
    let r := split_first_slash rest
    (c :: r.1, r.2)

/-- The path parsing of `delete_partition_data`:
`path.replace("s3://", "").split("/", 1)` giving `(bucket, key-prefix)`
(the key-prefix is `""` when no slash remains). -/
def parse_s3_path (path : String) : String × String :=
  let sp := split_first_slash (drop_s3_scheme path.data)
  (⟨sp.1⟩, match sp.2 with | none => "" | some rest => ⟨rest⟩)

/-- A Glue table registration: column list (name, glue type), root storage
location, and the partition key descriptors. -/
structure GlueTableInfo where
  columns : List (String × String)
  location : String
  partition_keys : List (String × String)
deriving DecidableEq, Repr

/-- The Glue catalog state. -/
structure GlueState where
  databases : List String
  tables : List ((String × String) × GlueTableInfo)
  partitions : List ((String × String × String) × String)
deriving DecidableEq, Repr

/-- Errors raised by Glue calls: the two semantic AWS exceptions the code
handles, plus an injected transient failure. -/
inductive GlueErr
  | entityNotFound
  | alreadyExists
  | transient
deriving DecidableEq, Repr

/-- `glue.get_database(Name)`: ok iff the database exists. -/
def get_database (g : GlueState) (name : String) : Except GlueErr Unit :=
  if name ∈ g.databases then .ok () else .error .entityNotFound

/-- `glue.create_database`: add the database; AlreadyExists if present. -/
def create_database (g : GlueState) (name : String) : Except GlueErr GlueState :=
  if name ∈ g.databases then .error .alreadyExists
  else .ok { g with databases := name :: g.databases }

/-- `glue.get_table(DatabaseName, Name)`: EntityNotFound if absent. -/
def get_table (g : GlueState) (db tbl : String) : Except GlueErr GlueTableInfo :=
  match alookup (db, tbl) g.tables with
  | some t => .ok t
  | none => .error .entityNotFound

/-- `glue.create_table`: register the table; AlreadyExists if present. -/
def create_table (g : GlueState) (db tbl : String) (info : GlueTableInfo) :
    Except GlueErr GlueState :=
  match alookup (db, tbl) g.tables with
  | some _ => .error .alreadyExists
  | none => .ok { g with tables := ((db, tbl), info) :: g.tables }

/-- `glue.create_partition`: EntityNotFound if the table does not exist,
AlreadyExists if the partition does; otherwise register it. -/
def create_partition (g : GlueState) (db tbl v loc : String) : Except GlueErr GlueState :=
  match alookup (db, tbl) g.tables with
  | none => .error .entityNotFound
  | some _ =>
    match alookup (db, tbl, v) g.partitions with
    | some _ => .error .alreadyExists
    | none => .ok { g with partitions := ((db, tbl, v), loc) :: g.partitions }

/-- `glue.delete_partition`: EntityNotFound if the table or the partition
does not exist; otherwise remove the partition entry. -/
def delete_partition (g : GlueState) (db tbl v : String) : Except GlueErr GlueState :=
  match alookup (db, tbl) g.tables with
  | none => .error .entityNotFound
  | some _ =>
    match alookup (db, tbl, v) g.partitions with
    | none => .error .entityNotFound
    | some _ => .ok { g with partitions := aremove (db, tbl, v) g.partitions }

/-- The Glue call sites of one publish call, for fault injection. -/
inductive CatOp
  | delGetTable
  | delDeletePartition
  | getDb
  | createDb
  | getTbl
  | createTbl
  | createPart
deriving DecidableEq, Repr

/-- Run a Glue call at a named call site: an injected fault raises a
transient error in place of the call's own outcome. -/
def run_glue {α : Type} (fault : CatOp → Bool) (op : CatOp) (act : Except GlueErr α) :
    Except GlueErr α :=
  if fault op then .error .transient else act

/-- The no-fault oracle: every backend call behaves semantically. -/
def no_fault : CatOp → Bool := fun _ => false

/-- The combined external state a publish call acts on. -/
structure World where
  s3 : S3State
  glue : GlueState
deriving DecidableEq, Repr

/-- State-changing backend calls that succeeded, in execution order. -/
inductive Event
  | s3Delete (bucket : String) (keys : List String)
  | s3Write (bucket key : String) (content : DataFrame)
  | glueDeletePartition (db tbl v : String)
  | glueCreateDatabase (db : String)
  | glueCreateTable (db tbl : String)
  | glueCreatePartition (db tbl v loc : String)
deriving DecidableEq, Repr

/-- The prints of the publish call that carry its user-visible result. -/
inductive Report
  | noDataToInsert
  | savingRows (n : Nat) (path : String)
  | successfullySaved (path : String)
deriving DecidableEq, Repr

/-- The S3 half of `delete_partition_data`: list the objects under the
prefix and, when any exist, bulk-delete exactly the listed keys. -/
def s3_delete_phase (bucket pfx : String) (s : S3State) : S3State × List Event :=
  let keys := list_objects_v2 bucket pfx s
  if keys.isEmpty then (s, []) else (delete_objects bucket keys s, [.s3Delete bucket keys])

/-- The Glue half of `delete_partition_data`: check the table, return
early when it is absent, otherwise delete the partition; every error
(semantic or injected) is caught and leaves the catalog as it was. -/
def glue_delete_phase (fault : CatOp → Bool)
    (database table date_id : String) (g : GlueState) : GlueState × List Event :=
  match run_glue fault .delGetTable (get_table g database table) with
  | .error _ => (g, [])
  | .ok _ =>
    match run_glue fault .delDeletePartition
        (delete_partition g database table date_id) with
    | .ok g' => (g', [.glueDeletePartition database table date_id])
    | .error _ => (g, [])

/-- `utils/duckdb_utils.py delete_partition_data`: best-effort removal of
the S3 objects under the partition path and of the Glue partition entry.
Every failure is caught (the two `try`/`except` blocks and the early
`return` when the table does not exist), so the function always returns a
resulting world; successful state changes are recorded as events. -/
def delete_partition_data (fault : CatOp → Bool)
    (database table date_id s3_partition_path : String) (w : World) :
    World × List Event :=
  let bp := parse_s3_path s3_partition_path
  let sd := s3_delete_phase bp.1 bp.2 w.s3
  let gp := glue_delete_phase fault database table date_id w.glue
  (⟨sd.1, gp.1⟩, sd.2 ++ gp.2)

/-- The DuckDB type to Glue type mapping used when creating the table. -/
def glue_type_of (dtype : String) : String :=
  let u := dtype.toUpper
  if u = "VARCHAR" then "string"
  else if u = "INTEGER" then "int"
  else if u = "DOUBLE" then "double"
  else "string"

/-- The Glue column list built from the schema argument. -/
def glue_columns (schema : Schema) : List (String × String) :=
  schema.map (fun cd => (cd.1, glue_type_of cd.2))

/-- The table registration the code creates on first publish:
schema-mapped columns, root location at the table's canonical S3 root,
and the single `date_id` string partition key. -/
def new_table_info (schema : Schema) (s3_base_path : String) : GlueTableInfo :=
  ⟨glue_columns schema, s3_base_path, [("date_id", "string")]⟩

/-- Last step of the Glue registration block: `create_partition` pointing
at the canonical partition path; a failure aborts to the outer handler
with the state accumulated so far. -/
def register_partition_step (fault : CatOp → Bool)
    (database table date_id s3_partition_path : String)
    (g : GlueState) (evs : List Event) : GlueState × List Event :=
  match run_glue fault .createPart
      (create_partition g database table date_id s3_partition_path) with
  | .ok g' => (g', evs ++ [.glueCreatePartition database table date_id s3_partition_path])
  | .error _ => (g, evs)

/-- Middle of the Glue registration block: the `get_table` existence
check and, when the table is absent and the schema argument truthy, the
`create_table` call; then the partition step. -/
def register_table_step (fault : CatOp → Bool)
    (database table date_id : String) (schema : Option Schema)
    (s3_base_path s3_partition_path : String)
    (g : GlueState) (evs : List Event) : GlueState × List Event :=
  match run_glue fault .getTbl (get_table g database table) with
  | .ok _ => register_partition_step fault database table date_id s3_partition_path g evs
  | .error .entityNotFound =>
    match schema with
    | some sch =>
      if sch.isEmpty then
        register_partition_step fault database table date_id s3_partition_path g evs
      else
        match run_glue fault .createTbl
            (create_table g database table (new_table_info sch s3_base_path)) with
        | .ok g' =>
          register_partition_step fault database table date_id s3_partition_path g'
            (evs ++ [.glueCreateTable database table])
        | .error _ => (g, evs)
    | none => register_partition_step fault database table date_id s3_partition_path g evs
  | .error _ => (g, evs)

/-- The Glue registration block of `duck_db_parquet_delete_and_insert`
(lines 159-249): ensure the database, maybe create the table, then create
the partition.  The whole block sits in one `try`/`except` that swallows
any error, so the function returns whatever state had been reached. -/
def register_in_glue (fault : CatOp → Bool)
    (database table date_id : String) (schema : Option Schema)
    (s3_base_path s3_partition_path : String) (g : GlueState) :
    GlueState × List Event :=
  match run_glue fault .getDb (get_database g database) with
  | .ok _ =>
    register_table_step fault database table date_id schema s3_base_path
      s3_partition_path g []
  | .error .entityNotFound =>
    match run_glue fault .createDb (create_database g database) with
    | .ok g' =>
      register_table_step fault database table date_id schema s3_base_path
        s3_partition_path g' [.glueCreateDatabase database]
    | .error _ => (g, [])
  | .error _ => (g, [])

/-- The only failure the publish call itself can raise in this model: the
DuckDB binder error of `INSERT INTO temp_table SELECT * FROM
data_to_insert` when the dataset's column count differs from the declared
temp-table's. -/
inductive PubErr
  | binderColumnCountMismatch
deriving DecidableEq, Repr

/-- The parquet content produced by the write step: with a truthy schema
the data is inserted positionally into a temp table declared from the
schema (failing when the column counts differ) and that table is copied
out, so the file carries the schema's column names; otherwise the
dataset is copied out unchanged. -/
def duckdb_write_content (data : DataFrame) (schema : Option Schema) :
    Except PubErr DataFrame :=
  match schema with
  | some sch =>
    if sch.isEmpty then .ok data
    else if data.columns.length = sch.length then .ok ⟨sch.map Prod.fst, data.rows⟩
    else .error .binderColumnCountMismatch
  | none => .ok data

deriving instance DecidableEq for Except

/-- Everything a publish call produces: the final external state, the
call's return value (the Python function returns `None`, so success
carries no payload), the backend event trace, and the result prints. -/
structure PublishOutcome where
  world : World
  ret : Except PubErr Unit
  events : List Event
  reports : List Report
deriving DecidableEq, Repr

/-- `utils/duckdb_utils.py duck_db_parquet_delete_and_insert`: the
publish coordinator.  Empty dataset: report and return at once.
Otherwise: delete the old partition (best effort), write the parquet
file to the canonical path (a binder error here propagates), then run
the Glue registration block (its errors are swallowed). -/
def duck_db_parquet_delete_and_insert (fault : CatOp → Bool)
    (bucket_name database table date_id : String) (data : DataFrame)
    (schema : Option Schema) (w : World) : PublishOutcome :=
  if data.empty then
    ⟨w, .ok (), [], [.noDataToInsert]⟩
  else
    let s3_base_path := get_s3_path bucket_name database table
    let s3_partition_path := s3_base_path ++ "/date_id=" ++ date_id
    let s3_data_path := s3_partition_path ++ "/data.parquet"
    let del := delete_partition_data fault database table date_id s3_partition_path w
    match duckdb_write_content data schema with
    | .error e =>
      ⟨del.1, .error e, del.2, [.savingRows data.rows.length s3_data_path]⟩
    | .ok content =>
      let bp := parse_s3_path s3_data_path
      let s3' := s3_write bp.1 bp.2 content del.1.s3
      let reg := register_in_glue fault database table date_id schema s3_base_path
        s3_partition_path del.1.glue
      ⟨⟨s3', reg.1⟩, .ok (),
        del.2 ++ [.s3Write bp.1 bp.2 content] ++ reg.2,
        [.savingRows data.rows.length s3_data_path, .successfullySaved s3_data_path]⟩

/-- Sample dataset used by the concrete witnesses. -/
def sample_data : DataFrame :=
  ⟨["city", "temperature"], [["seoul", "12.5"], ["busan", "14.0"], ["daegu", "15.5"]]⟩

/-- Sample schema argument used by the concrete witnesses. -/
def sample_schema : Schema := [("city", "VARCHAR"), ("temperature", "DOUBLE")]

/-- Content of a stale partition file present before the sample calls. -/
def stale_content : DataFrame := ⟨["city"], [["old"]]⟩

/-- A neighbouring partition's file that must stay untouched. -/
def other_object : S3Object :=
  ⟨"bkt", "db/tbl/date_id=2024-01-02/data.parquet", ⟨["city"], [["x"]]⟩⟩

/-- Sample prior world: the key 2024-01-01 already holds data both in S3
and in the catalog, next to an unrelated partition. -/
def sample_world : World :=
  { s3 := [⟨"bkt", "db/tbl/date_id=2024-01-01/data.parquet", stale_content⟩, other_object]
    glue :=
      { databases := ["db"]
        tables := [(("db", "tbl"), ⟨[("city", "string"), ("temperature", "double")],
          "s3://bkt/db/tbl", [("date_id", "string")]⟩)]
        partitions := [(("db", "tbl", "2024-01-01"), "s3://bkt/db/tbl/date_id=2024-01-01"),
          (("db", "tbl", "2024-01-02"), "s3://bkt/db/tbl/date_id=2024-01-02")] } }

/-- A dataset with zero rows (pandas `empty` is true). -/
def empty_data : DataFrame := ⟨["city", "temperature"], []⟩

/-- A dataset missing the `temperature` column required by
`sample_schema` (one column against the schema's two). -/
def narrow_data : DataFrame := ⟨["city"], [["seoul"]]⟩

/-- A prior world whose table entry has a column set incompatible with
`sample_schema` (single column `x`). -/
def conflict_world : World :=
  { s3 := []
    glue :=
      { databases := ["db"]
        tables := [(("db", "tbl"), ⟨[("x", "string")], "s3://bkt/db/tbl",
          [("date_id", "string")]⟩)]
        partitions := [] } }

/-- A prior world whose catalog has the database but no table entry. -/
def no_table_world : World :=
  { s3 := []
    glue := { databases := ["db"], tables := [], partitions := [] } }

/-- A fault oracle that fails exactly the catalog's partition-creation
call (the catalog step) and nothing else; storage is never faulted. -/
def partition_fault : CatOp → Bool := fun op => decide (op = .createPart)

/-- Representation invariant of the Glue catalog: a partition entry only
exists under an existing table (AWS Glue cannot hold a partition of a
table that is not registered). -/
def glue_wf (g : GlueState) : Bool :=
  g.partitions.all (fun e => (alookup (e.1.1, e.1.2.1) g.tables).isSome)

theorem alookup_aremove_self {α β : Type} [DecidableEq α] (k : α) (l : List (α × β)) :
    alookup k (aremove k l) = none := by
  induction l with
  | nil => rfl
  | cons e es ih =>
    by_cases h : e.1 = k
    · simpa [aremove, h] using ih
    · simpa [aremove, alookup, h] using ih

theorem alookup_aremove_ne {α β : Type} [DecidableEq α] {k k' : α} (l : List (α × β))
    (h : k' ≠ k) : alookup k' (aremove k l) = alookup k' l := by
  induction l with
  | nil => rfl
  | cons e es ih =>
    by_cases he : e.1 = k
    · have hne : ¬e.1 = k' := fun hh => h (by rw [← hh, he])
      rw [aremove, if_pos he, ih, alookup, if_neg hne]
    · rw [aremove, if_neg he, alookup, alookup]
      by_cases he' : e.1 = k'
      · rw [if_pos he', if_pos he']
      · rw [if_neg he', if_neg he', ih]

theorem s3_lookup_delete_objects (B K b : String) (keys : List String) (s : S3State) :
    s3_lookup B K (delete_objects b keys s) =
      if b = B ∧ K ∈ keys then none else s3_lookup B K s := by
  induction s with
  | nil => simp [delete_objects, s3_lookup]
  | cons o os ih =>
    by_cases hd : o.bucket = b ∧ o.key ∈ keys
    · rw [delete_objects, if_pos hd, ih]
      by_cases hc : b = B ∧ K ∈ keys
      · simp [hc]
      · have hm : ¬(o.bucket = B ∧ o.key = K) := by
          rintro ⟨hb, hk⟩
          exact hc ⟨hd.1 ▸ hb, hk ▸ hd.2⟩
        simp [hc, s3_lookup, hm]
    · rw [delete_objects, if_neg hd]
      by_cases hm : o.bucket = B ∧ o.key = K
      · have hc : ¬(b = B ∧ K ∈ keys) := by
          rintro ⟨hb, hk⟩
          exact hd ⟨hb ▸ hm.1, hm.2 ▸ hk⟩
        simp [s3_lookup, hm, hc]
      · simp [s3_lookup, hm, ih]

theorem s3_lookup_write (B K b k : String) (c : DataFrame) (s : S3State) :
    s3_lookup B K (s3_write b k c s) =
      if b = B ∧ k = K then some c else s3_lookup B K s := by
  by_cases h : b = B ∧ k = K
  · simp [s3_write, s3_lookup, h]
  · have : ¬(b = B ∧ K ∈ [k]) := by
      rintro ⟨hb, hk⟩
      simp at hk
      exact h ⟨hb, hk.symm⟩
    simp [s3_write, s3_lookup, h, s3_lookup_delete_objects, this]
    intro hb hk
    exact (h ⟨hb, hk.symm⟩).elim

theorem prefix_of_mem_list_objects {b p K : String} {s : S3State}
    (h : K ∈ list_objects_v2 b p s) : str_starts_with p K = true := by
  induction s with
  | nil => simp [list_objects_v2] at h
  | cons o os ih =>
    by_cases h2 : o.bucket = b ∧ str_starts_with p o.key = true
    · rw [list_objects_v2, if_pos h2] at h
      rcases List.mem_cons.mp h with h | h
      · rw [h]
        exact h2.2
      · exact ih h
    · rw [list_objects_v2, if_neg h2] at h
      exact ih h

theorem mem_list_objects_of_lookup {B K p : String} {s : S3State} {c : DataFrame}
    (hl : s3_lookup B K s = some c) (hp : str_starts_with p K = true) :
    K ∈ list_objects_v2 B p s := by
  induction s with
  | nil => simp [s3_lookup] at hl
  | cons o os ih =>
    by_cases h : o.bucket = B ∧ o.key = K
    · have h2 : o.bucket = B ∧ str_starts_with p o.key = true := ⟨h.1, h.2.symm ▸ hp⟩
      rw [list_objects_v2, if_pos h2]
      exact h.2 ▸ List.mem_cons_self _ _
    · rw [s3_lookup, if_neg h] at hl
      by_cases h2 : o.bucket = B ∧ str_starts_with p o.key = true
      · rw [list_objects_v2, if_pos h2]
        exact List.mem_cons_of_mem _ (ih hl)
      · rw [list_objects_v2, if_neg h2]
        exact ih hl

theorem s3_lookup_delete_phase (B K b p : String) (s : S3State) :
    s3_lookup B K (s3_delete_phase b p s).1 =
      if b = B ∧ str_starts_with p K = true then none else s3_lookup B K s := by
  unfold s3_delete_phase
  by_cases hk : (list_objects_v2 b p s).isEmpty
  · rw [if_pos hk]
    by_cases hc : b = B ∧ str_starts_with p K = true
    · rw [if_pos hc]
      cases hl : s3_lookup B K s with
      | none => rfl
      | some c =>
        have := mem_list_objects_of_lookup (p := p) hl hc.2
        rw [hc.1] at hk
        rw [List.isEmpty_iff] at hk
        rw [hk] at this
        simp at this
    · rw [if_neg hc]
  · rw [if_neg hk]
    simp only [s3_lookup_delete_objects]
    by_cases hc : b = B ∧ str_starts_with p K = true
    · rw [if_pos hc]
      by_cases hm : K ∈ list_objects_v2 b p s
      · rw [if_pos ⟨hc.1, hm⟩]
      · rw [if_neg (by rintro ⟨_, hx⟩; exact hm hx)]
        cases hl : s3_lookup B K s with
        | none => rfl
        | some c =>
          rw [← hc.1] at hl
          exact absurd (mem_list_objects_of_lookup hl hc.2) (hc.1 ▸ hm)
    · rw [if_neg hc]
      rw [if_neg (by rintro ⟨hb, hm⟩; exact hc ⟨hb, prefix_of_mem_list_objects hm⟩)]

theorem run_glue_ok {α : Type} {fault : CatOp → Bool} {op : CatOp}
    {act : Except GlueErr α} {x : α}
    (h : run_glue fault op act = .ok x) : act = .ok x := by
  unfold run_glue at h
  by_cases hf : fault op
  · rw [if_pos hf] at h
    simp at h
  · rwa [if_neg hf] at h

theorem run_glue_no_fault {α : Type} (op : CatOp) (act : Except GlueErr α) :
    run_glue no_fault op act = act := by
  unfold run_glue no_fault
  simp

theorem delete_partition_ok {g g' : GlueState} {db tbl v : String}
    (h : delete_partition g db tbl v = .ok g') :
    g' = { g with partitions := aremove (db, tbl, v) g.partitions } := by
  unfold delete_partition at h
  cases h1 : alookup (db, tbl) g.tables with
  | none =>
    rw [h1] at h
    simp at h
  | some t =>
    rw [h1] at h
    cases h2 : alookup (db, tbl, v) g.partitions with
    | none =>
      rw [h2] at h
      simp at h
    | some l =>
      rw [h2] at h
      simp at h
      exact h.symm

theorem create_partition_ok {g g' : GlueState} {db tbl v loc : String}
    (h : create_partition g db tbl v loc = .ok g') :
    g' = { g with partitions := ((db, tbl, v), loc) :: g.partitions } := by
  unfold create_partition at h
  cases h1 : alookup (db, tbl) g.tables with
  | none =>
    rw [h1] at h
    simp at h
  | some t =>
    rw [h1] at h
    cases h2 : alookup (db, tbl, v) g.partitions with
    | none =>
      rw [h2] at h
      simp at h
      exact h.symm
    | some l =>
      rw [h2] at h
      simp at h

theorem create_table_ok {g g' : GlueState} {db tbl : String} {info : GlueTableInfo}
    (h : create_table g db tbl info = .ok g') :
    g' = { g with tables := ((db, tbl), info) :: g.tables } := by
  unfold create_table at h
  cases h1 : alookup (db, tbl) g.tables with
  | none =>
    rw [h1] at h
    simp at h
    exact h.symm
  | some t =>
    rw [h1] at h
    simp at h

theorem create_database_ok {g g' : GlueState} {name : String}
    (h : create_database g name = .ok g') :
    g' = { g with databases := name :: g.databases } := by
  unfold create_database at h
  by_cases h1 : name ∈ g.databases
  · rw [if_pos h1] at h
    simp at h
  · rw [if_neg h1] at h
    simp at h
    exact h.symm

theorem glue_delete_phase_frame (fault : CatOp → Bool) (db tbl did : String) (g : GlueState) :
    (glue_delete_phase fault db tbl did g).1.tables = g.tables ∧
    (glue_delete_phase fault db tbl did g).1.databases = g.databases ∧
    ∀ k : String × String × String, k ≠ (db, tbl, did) →
      alookup k (glue_delete_phase fault db tbl did g).1.partitions =
        alookup k g.partitions := by
  unfold glue_delete_phase
  cases hg : run_glue fault .delGetTable (get_table g db tbl) with
  | error e => exact ⟨rfl, rfl, fun _ _ => rfl⟩
  | ok t =>
    cases hd : run_glue fault .delDeletePartition (delete_partition g db tbl did) with
    | error e => exact ⟨rfl, rfl, fun _ _ => rfl⟩
    | ok g' =>
      have hg' := delete_partition_ok (run_glue_ok hd)
      subst hg'
      exact ⟨rfl, rfl, fun k hk => alookup_aremove_ne _ hk⟩

theorem glue_delete_phase_target (db tbl did : String) (g : GlueState)
    (hwk : alookup (db, tbl) g.tables = none →
      alookup (db, tbl, did) g.partitions = none) :
    alookup (db, tbl, did) (glue_delete_phase no_fault db tbl did g).1.partitions =
      none := by
  unfold glue_delete_phase
  rw [run_glue_no_fault, run_glue_no_fault]
  unfold get_table delete_partition
  cases h1 : alookup (db, tbl) g.tables with
  | none => exact hwk h1
  | some t =>
    cases h2 : alookup (db, tbl, did) g.partitions with
    | none => exact h2
    | some l => exact alookup_aremove_self _ _

theorem glue_delete_phase_events (fault : CatOp → Bool) (db tbl did : String)
    (g : GlueState) :
    (glue_delete_phase fault db tbl did g).2 = [] ∨
    (glue_delete_phase fault db tbl did g).2 = [.glueDeletePartition db tbl did] := by
  unfold glue_delete_phase
  cases hg : run_glue fault .delGetTable (get_table g db tbl) with
  | error e => exact Or.inl rfl
  | ok t =>
    cases hd : run_glue fault .delDeletePartition (delete_partition g db tbl did) with
    | error e => exact Or.inl rfl
    | ok g' => exact Or.inr rfl

theorem s3_delete_phase_events (bucket pfx : String) (s : S3State) :
    (s3_delete_phase bucket pfx s).2 = [] ∨
    (s3_delete_phase bucket pfx s).2 =
      [.s3Delete bucket (list_objects_v2 bucket pfx s)] := by
  unfold s3_delete_phase
  by_cases hk : (list_objects_v2 bucket pfx s).isEmpty
  · rw [if_pos hk]
    exact Or.inl rfl
  · rw [if_neg hk]
    exact Or.inr rfl

theorem delete_partition_data_events (fault : CatOp → Bool)
    (db tbl did p : String) (w : World) :
    ∀ e ∈ (delete_partition_data fault db tbl did p w).2,
      (∀ b k c, e ≠ Event.s3Write b k c) ∧
      (∀ a b v l, e ≠ Event.glueCreatePartition a b v l) := by
  intro e he
  unfold delete_partition_data at he
  simp only [List.mem_append] at he
  have hconstr : (∃ b ks, e = Event.s3Delete b ks) ∨ (∃ a b v, e = Event.glueDeletePartition a b v) := by
    rcases he with he | he
    · rcases s3_delete_phase_events (parse_s3_path p).1 (parse_s3_path p).2 w.s3 with h | h
      · rw [h] at he
        simp at he
      · rw [h] at he
        simp at he
        exact Or.inl ⟨_, _, he⟩
    · rcases glue_delete_phase_events fault db tbl did w.glue with h | h
      · rw [h] at he
        simp at he
      · rw [h] at he
        simp at he
        exact Or.inr ⟨_, _, _, he⟩
  rcases hconstr with ⟨b, ks, hh⟩ | ⟨a, b, v, hh⟩ <;> subst hh <;>
    exact ⟨fun _ _ _ => by simp, fun _ _ _ _ => by simp⟩

theorem run_glue_error_enf {α : Type} {fault : CatOp → Bool} {op : CatOp}
    {act : Except GlueErr α}
    (h : run_glue fault op act = .error .entityNotFound) :
    act = .error .entityNotFound := by
  unfold run_glue at h
  by_cases hf : fault op
  · rw [if_pos hf] at h
    simp at h
  · rwa [if_neg hf] at h

theorem register_partition_step_frame (fault : CatOp → Bool)
    (db tbl did ppath : String) (g : GlueState) (evs : List Event) :
    (register_partition_step fault db tbl did ppath g evs).1.tables = g.tables ∧
    (register_partition_step fault db tbl did ppath g evs).1.databases = g.databases := by
  unfold register_partition_step
  cases hc : run_glue fault .createPart (create_partition g db tbl did ppath) with
  | error e => exact ⟨rfl, rfl⟩
  | ok g' =>
    have h := create_partition_ok (run_glue_ok hc)
    subst h
    exact ⟨rfl, rfl⟩

theorem register_partition_step_target (db tbl did ppath : String) (g : GlueState)
    (evs : List Event) (hp : alookup (db, tbl, did) g.partitions = none) :
    alookup (db, tbl, did)
        (register_partition_step no_fault db tbl did ppath g evs).1.partitions =
      if (alookup (db, tbl) g.tables).isSome then some ppath else none := by
  unfold register_partition_step
  rw [run_glue_no_fault]
  unfold create_partition
  cases h1 : alookup (db, tbl) g.tables with
  | none => simpa using hp
  | some t =>
    rw [hp]
    simp [alookup]

theorem register_table_step_target (db tbl did : String) (schema : Option Schema)
    (base ppath : String) (g : GlueState) (evs : List Event)
    (hp : alookup (db, tbl, did) g.partitions = none) :
    alookup (db, tbl, did)
        (register_table_step no_fault db tbl did schema base ppath g evs).1.partitions =
      if (alookup (db, tbl) g.tables).isSome || schema_truthy schema then some ppath
      else none := by
  unfold register_table_step
  rw [run_glue_no_fault]
  unfold get_table
  cases h1 : alookup (db, tbl) g.tables with
  | some t =>
    rw [register_partition_step_target db tbl did ppath g evs hp, h1]
    simp
  | none =>
    cases schema with
    | none =>
      rw [register_partition_step_target db tbl did ppath g evs hp, h1]
      simp [schema_truthy]
    | some sch =>
      dsimp only
      by_cases hs : sch.isEmpty
      · rw [if_pos hs, register_partition_step_target db tbl did ppath g evs hp, h1]
        simp [schema_truthy, hs]
      · rw [if_neg hs, run_glue_no_fault]
        unfold create_table
        rw [h1]
        dsimp only
        rw [register_partition_step_target db tbl did ppath
          ⟨g.databases, ((db, tbl), new_table_info sch base) :: g.tables, g.partitions⟩
          (evs ++ [Event.glueCreateTable db tbl]) hp]
        simp [alookup, schema_truthy, hs]

theorem register_in_glue_target (db tbl did : String) (schema : Option Schema)
    (base ppath : String) (g : GlueState)
    (hp : alookup (db, tbl, did) g.partitions = none) :
    alookup (db, tbl, did)
        (register_in_glue no_fault db tbl did schema base ppath g).1.partitions =
      if (alookup (db, tbl) g.tables).isSome || schema_truthy schema then some ppath
      else none := by
  unfold register_in_glue
  rw [run_glue_no_fault]
  unfold get_database
  by_cases h1 : db ∈ g.databases
  · rw [if_pos h1]
    exact register_table_step_target db tbl did schema base ppath g [] hp
  · rw [if_neg h1, run_glue_no_fault]
    unfold create_database
    rw [if_neg h1]
    exact register_table_step_target db tbl did schema base ppath _ _ hp

theorem register_table_step_tables_present (fault : CatOp → Bool)
    (db tbl did : String) (schema : Option Schema) (base ppath : String)
    (g : GlueState) (evs : List Event) (info : GlueTableInfo)
    (ht : alookup (db, tbl) g.tables = some info) :
    alookup (db, tbl)
      (register_table_step fault db tbl did schema base ppath g evs).1.tables =
      some info := by
  unfold register_table_step
  cases hg : run_glue fault .getTbl (get_table g db tbl) with
  | ok t => rw [(register_partition_step_frame fault db tbl did ppath g evs).1, ht]
  | error e =>
    cases e with
    | entityNotFound =>
      have h := run_glue_error_enf hg
      unfold get_table at h
      rw [ht] at h
      simp at h
    | alreadyExists => exact ht
    | transient => exact ht

theorem register_in_glue_tables_present (fault : CatOp → Bool)
    (db tbl did : String) (schema : Option Schema) (base ppath : String)
    (g : GlueState) (info : GlueTableInfo)
    (ht : alookup (db, tbl) g.tables = some info) :
    alookup (db, tbl)
      (register_in_glue fault db tbl did schema base ppath g).1.tables = some info := by
  unfold register_in_glue
  cases hg : run_glue fault .getDb (get_database g db) with
  | ok u => exact register_table_step_tables_present fault db tbl did schema base ppath g [] info ht
  | error e =>
    cases e with
    | entityNotFound =>
      cases hc : run_glue fault .createDb (create_database g db) with
      | ok g1 =>
        have h := create_database_ok (run_glue_ok hc)
        subst h
        exact register_table_step_tables_present fault db tbl did schema base ppath
          ⟨db :: g.databases, g.tables, g.partitions⟩ [Event.glueCreateDatabase db] info ht
      | error e2 => exact ht
    | alreadyExists => exact ht
    | transient => exact ht

theorem register_table_step_tables_absent (db tbl did : String) (schema : Option Schema)
    (base ppath : String) (g : GlueState) (evs : List Event)
    (ht : alookup (db, tbl) g.tables = none) :
    alookup (db, tbl)
      (register_table_step no_fault db tbl did schema base ppath g evs).1.tables =
      if schema_truthy schema then some (new_table_info (schema.getD []) base)
      else none := by
  unfold register_table_step
  rw [run_glue_no_fault]
  unfold get_table
  rw [ht]
  dsimp only
  cases schema with
  | none =>
    rw [(register_partition_step_frame no_fault db tbl did ppath g evs).1, ht]
    simp [schema_truthy]
  | some sch =>
    dsimp only
    by_cases hs : sch.isEmpty
    · rw [if_pos hs, (register_partition_step_frame no_fault db tbl did ppath g evs).1, ht]
      simp [schema_truthy, hs]
    · rw [if_neg hs, run_glue_no_fault]
      unfold create_table
      rw [ht]
      dsimp only
      rw [(register_partition_step_frame no_fault db tbl did ppath
        ⟨g.databases, ((db, tbl), new_table_info sch base) :: g.tables, g.partitions⟩
        (evs ++ [Event.glueCreateTable db tbl])).1]
      simp [alookup, schema_truthy, hs]

theorem register_in_glue_tables_absent (db tbl did : String) (schema : Option Schema)
    (base ppath : String) (g : GlueState)
    (ht : alookup (db, tbl) g.tables = none) :
    alookup (db, tbl)
      (register_in_glue no_fault db tbl did schema base ppath g).1.tables =
      if schema_truthy schema then some (new_table_info (schema.getD []) base)
      else none := by
  unfold register_in_glue
  rw [run_glue_no_fault]
  unfold get_database
  by_cases h1 : db ∈ g.databases
  · rw [if_pos h1]
    exact register_table_step_tables_absent db tbl did schema base ppath g [] ht
  · rw [if_neg h1, run_glue_no_fault]
    unfold create_database
    rw [if_neg h1]
    exact register_table_step_tables_absent db tbl did schema base ppath
      ⟨db :: g.databases, g.tables, g.partitions⟩ [Event.glueCreateDatabase db] ht

theorem register_in_glue_tables_isSome (db tbl did : String) (schema : Option Schema)
    (base ppath : String) (g : GlueState) :
    (alookup (db, tbl)
        (register_in_glue no_fault db tbl did schema base ppath g).1.tables).isSome =
      ((alookup (db, tbl) g.tables).isSome || schema_truthy schema) := by
  cases ht : alookup (db, tbl) g.tables with
  | some info =>
    rw [register_in_glue_tables_present no_fault db tbl did schema base ppath g info ht]
    simp
  | none =>
    rw [register_in_glue_tables_absent db tbl did schema base ppath g ht]
    by_cases hs : schema_truthy schema <;> simp [hs]

theorem publish_unfold_ok (fault : CatOp → Bool)
    (bucket_name database table date_id : String) (data : DataFrame)
    (schema : Option Schema) (w : World) (content : DataFrame)
    (hne : data.empty = false)
    (hw : duckdb_write_content data schema = .ok content) :
    duck_db_parquet_delete_and_insert fault bucket_name database table date_id data
        schema w =
      let s3_base_path := get_s3_path bucket_name database table
      let s3_partition_path := s3_base_path ++ "/date_id=" ++ date_id
      let s3_data_path := s3_partition_path ++ "/data.parquet"
      let del := delete_partition_data fault database table date_id s3_partition_path w
      let bp := parse_s3_path s3_data_path
      let reg := register_in_glue fault database table date_id schema s3_base_path
        s3_partition_path del.1.glue
      ⟨⟨s3_write bp.1 bp.2 content del.1.s3, reg.1⟩, .ok (),
        del.2 ++ [.s3Write bp.1 bp.2 content] ++ reg.2,
        [.savingRows data.rows.length s3_data_path,
          .successfullySaved s3_data_path]⟩ := by
  unfold duck_db_parquet_delete_and_insert
  rw [if_neg (by rw [hne]; simp), hw]

theorem publish_unfold_err (fault : CatOp → Bool)
    (bucket_name database table date_id : String) (data : DataFrame)
    (schema : Option Schema) (w : World) (e : PubErr)
    (hne : data.empty = false)
    (hw : duckdb_write_content data schema = .error e) :
    duck_db_parquet_delete_and_insert fault bucket_name database table date_id data
        schema w =
      let s3_base_path := get_s3_path bucket_name database table
      let s3_partition_path := s3_base_path ++ "/date_id=" ++ date_id
      let s3_data_path := s3_partition_path ++ "/data.parquet"
      let del := delete_partition_data fault database table date_id s3_partition_path w
      ⟨del.1, .error e, del.2, [.savingRows data.rows.length s3_data_path]⟩ := by
  unfold duck_db_parquet_delete_and_insert
  rw [if_neg (by rw [hne]; simp), hw]

theorem publish_unfold_empty (fault : CatOp → Bool)
    (bucket_name database table date_id : String) (data : DataFrame)
    (schema : Option Schema) (w : World)
    (he : data.empty = true) :
    duck_db_parquet_delete_and_insert fault bucket_name database table date_id data
        schema w = ⟨w, .ok (), [], [.noDataToInsert]⟩ := by
  unfold duck_db_parquet_delete_and_insert
  rw [if_pos he]

theorem s3_delete_phase_noop (bucket pfx : String) (s : S3State)
    (hs : list_objects_v2 bucket pfx s = []) :
    s3_delete_phase bucket pfx s = (s, []) := by
  unfold s3_delete_phase
  rw [hs]
  rfl

theorem glue_delete_phase_noop (fault : CatOp → Bool) (db tbl did : String)
    (g : GlueState)
    (hp : alookup (db, tbl, did) g.partitions = none) :
    glue_delete_phase fault db tbl did g = (g, []) := by
  unfold glue_delete_phase
  cases hg : run_glue fault .delGetTable (get_table g db tbl) with
  | error e => rfl
  | ok t =>
    cases hd : run_glue fault .delDeletePartition (delete_partition g db tbl did) with
    | error e => rfl
    | ok g' =>
      have h := run_glue_ok hd
      unfold delete_partition at h
      cases h1 : alookup (db, tbl) g.tables with
      | none =>
        rw [h1] at h
        simp at h
      | some t2 =>
        rw [h1, hp] at h
        simp at h

theorem mem_delete_objects_subset {b : String} {keys : List String} {s : S3State}
    {o : S3Object} (h : o ∈ delete_objects b keys s) : o ∈ s := by
  induction s with
  | nil => simp [delete_objects] at h
  | cons x xs ih =>
    by_cases hd : x.bucket = b ∧ x.key ∈ keys
    · rw [delete_objects, if_pos hd] at h
      exact List.mem_cons_of_mem _ (ih h)
    · rw [delete_objects, if_neg hd] at h
      rcases List.mem_cons.mp h with h | h
      · exact h ▸ List.mem_cons_self _ _
      · exact List.mem_cons_of_mem _ (ih h)

theorem mem_delete_objects_of {b : String} {keys : List String} {s : S3State}
    {o : S3Object} (ho : o ∈ s) (hn : ¬(o.bucket = b ∧ o.key ∈ keys)) :
    o ∈ delete_objects b keys s := by
  induction s with
  | nil => simp at ho
  | cons x xs ih =>
    rcases List.mem_cons.mp ho with h | h
    · subst h
      rw [delete_objects, if_neg hn]
      exact List.mem_cons_self _ _
    · by_cases hd : x.bucket = b ∧ x.key ∈ keys
      · rw [delete_objects, if_pos hd]
        exact ih h
      · rw [delete_objects, if_neg hd]
        exact List.mem_cons_of_mem _ (ih h)

theorem mem_s3_delete_phase_subset {bucket pfx : String} {s : S3State} {o : S3Object}
    (h : o ∈ (s3_delete_phase bucket pfx s).1) : o ∈ s := by
  unfold s3_delete_phase at h
  by_cases hk : (list_objects_v2 bucket pfx s).isEmpty
  · rwa [if_pos hk] at h
  · rw [if_neg hk] at h
    exact mem_delete_objects_subset h

theorem mem_s3_delete_phase_of {bucket pfx : String} {s : S3State} {o : S3Object}
    (ho : o ∈ s)
    (hn : ¬(o.bucket = bucket ∧ str_starts_with pfx o.key = true)) :
    o ∈ (s3_delete_phase bucket pfx s).1 := by
  unfold s3_delete_phase
  by_cases hk : (list_objects_v2 bucket pfx s).isEmpty
  · rwa [if_pos hk]
  · rw [if_neg hk]
    refine mem_delete_objects_of ho ?_
    rintro ⟨hb, hkm⟩
    exact hn ⟨hb, prefix_of_mem_list_objects hkm⟩

/-- C9: deleting a non-existent partition (no storage objects under the
partition prefix and no catalog partition entry) is a complete no-op:
`delete_partition_data` returns with the world unchanged and performs no
state-changing backend call, raising no error, under every fault
oracle. -/
theorem delete_partition_data_noop_on_absent (fault : CatOp → Bool)
    (database table date_id s3_partition_path : String) (w : World)
    (hs : list_objects_v2 (parse_s3_path s3_partition_path).1
      (parse_s3_path s3_partition_path).2 w.s3 = [])
    (hp : alookup (database, table, date_id) w.glue.partitions = none) :
    delete_partition_data fault database table date_id s3_partition_path w =
      (w, []) := by
  unfold delete_partition_data
  dsimp only
  rw [s3_delete_phase_noop _ _ _ hs,
    glue_delete_phase_noop fault database table date_id w.glue hp]
  rfl

/-- Witness for C9: deleting the absent partition 2024-03-03 of the
sample world changes nothing and reports no event. -/
theorem delete_partition_data_noop_on_absent_witness :
    delete_partition_data no_fault "db" "tbl" "2024-03-03"
      "s3://bkt/db/tbl/date_id=2024-03-03" sample_world = (sample_world, []) :=
  delete_partition_data_noop_on_absent no_fault "db" "tbl" "2024-03-03"
    "s3://bkt/db/tbl/date_id=2024-03-03" sample_world (by decide) (by decide)

/-- C10: the storage objects deleted by `delete_partition_data` are
contained in the objects of the parsed bucket whose keys start with the
parsed prefix: every surviving object was already stored, every object
outside the bucket/prefix survives, and catalog partitions under any
other key, all tables and all databases are left unchanged, under every
fault oracle. -/
theorem delete_partition_data_frame (fault : CatOp → Bool)
    (database table date_id P : String) (w : World) :
    (∀ o ∈ (delete_partition_data fault database table date_id P w).1.s3, o ∈ w.s3) ∧
    (∀ o ∈ w.s3,
      ¬(o.bucket = (parse_s3_path P).1 ∧
        str_starts_with (parse_s3_path P).2 o.key = true) →
      o ∈ (delete_partition_data fault database table date_id P w).1.s3) ∧
    (∀ k : String × String × String, k ≠ (database, table, date_id) →
      alookup k
          (delete_partition_data fault database table date_id P w).1.glue.partitions =
        alookup k w.glue.partitions) ∧
    (delete_partition_data fault database table date_id P w).1.glue.tables =
      w.glue.tables ∧
    (delete_partition_data fault database table date_id P w).1.glue.databases =
      w.glue.databases := by
  have hf := glue_delete_phase_frame fault database table date_id w.glue
  exact ⟨fun o ho => mem_s3_delete_phase_subset ho,
    fun o ho hn => mem_s3_delete_phase_of ho hn,
    fun k hk => hf.2.2 k hk, hf.1, hf.2.1⟩

/-- Witness for C10: deleting partition 2024-01-01 leaves the
neighbouring object and the 2024-01-02 catalog partition untouched. -/
theorem delete_partition_data_frame_witness :
    other_object ∈ (delete_partition_data no_fault "db" "tbl" "2024-01-01"
      "s3://bkt/db/tbl/date_id=2024-01-01" sample_world).1.s3 ∧
    alookup ("db", "tbl", "2024-01-02")
      (delete_partition_data no_fault "db" "tbl" "2024-01-01"
        "s3://bkt/db/tbl/date_id=2024-01-01" sample_world).1.glue.partitions =
      some "s3://bkt/db/tbl/date_id=2024-01-02" := by
  have h := delete_partition_data_frame no_fault "db" "tbl" "2024-01-01"
    "s3://bkt/db/tbl/date_id=2024-01-01" sample_world
  refine ⟨h.2.1 other_object (by decide) (by decide), ?_⟩
  rw [h.2.2.1 ("db", "tbl", "2024-01-02") (by decide)]
  decide

theorem mem_of_getElem?_eq {α : Type} {l : List α} {i : Nat} {a : α}
    (h : l[i]? = some a) : a ∈ l := by
  rcases List.getElem?_eq_some.mp h with ⟨hlt, hget⟩
  exact hget ▸ List.getElem_mem hlt

theorem publish_ok_outcome (fault : CatOp → Bool)
    (bucket_name database table date_id : String) (data : DataFrame)
    (schema : Option Schema) (w : World) (content : DataFrame) (B K : String)
    (hne : data.empty = false)
    (hw : duckdb_write_content data schema = .ok content)
    (hdp : parse_s3_path (get_s3_path bucket_name database table ++ "/date_id=" ++
      date_id ++ "/data.parquet") = (B, K)) :
    (duck_db_parquet_delete_and_insert fault bucket_name database table date_id data
      schema w).ret = .ok () ∧
    s3_lookup B K
      (duck_db_parquet_delete_and_insert fault bucket_name database table date_id data
        schema w).world.s3 = some content := by
  rw [publish_unfold_ok fault bucket_name database table date_id data schema w
    content hne hw]
  dsimp only
  rw [hdp]
  refine ⟨rfl, ?_⟩
  rw [s3_lookup_write]
  simp

/-- C1: for every publish call with a non-empty dataset whose write step
succeeds, every catalog partition-creation event in the call's trace is
strictly preceded by the storage write event (no state of the call has a
freshly created catalog partition before the data write), and — under
every fault oracle on the catalog calls, storage not being faulted — the
file at the canonical data path of the final state exists with the
correct content. -/
theorem publish_partition_registration_after_write (fault : CatOp → Bool)
    (bucket_name database table date_id : String) (data : DataFrame)
    (schema : Option Schema) (w : World) (content : DataFrame) (B K : String)
    (hne : data.empty = false)
    (hw : duckdb_write_content data schema = .ok content)
    (hdp : parse_s3_path (get_s3_path bucket_name database table ++ "/date_id=" ++
      date_id ++ "/data.parquet") = (B, K)) :
    (∀ (i : Nat) (db' tbl' v' loc' : String),
      (duck_db_parquet_delete_and_insert fault bucket_name database table date_id
        data schema w).events[i]? = some (.glueCreatePartition db' tbl' v' loc') →
      ∃ j < i, ∃ (b k : String) (c : DataFrame),
        (duck_db_parquet_delete_and_insert fault bucket_name database table date_id
          data schema w).events[j]? = some (.s3Write b k c)) ∧
    s3_lookup B K
      (duck_db_parquet_delete_and_insert fault bucket_name database table date_id
        data schema w).world.s3 = some content := by
  refine ⟨?_, (publish_ok_outcome fault bucket_name database table date_id data
    schema w content B K hne hw hdp).2⟩
  intro i db' tbl' v' loc' hi
  rw [publish_unfold_ok fault bucket_name database table date_id data schema w
    content hne hw] at hi ⊢
  dsimp only at hi ⊢
  rw [List.append_assoc, List.singleton_append] at hi ⊢
  rcases Nat.lt_trichotomy i
    (delete_partition_data fault database table date_id
      (get_s3_path bucket_name database table ++ "/date_id=" ++ date_id) w).2.length
    with hlt | heq | hgt
  · rw [List.getElem?_append, if_pos hlt] at hi
    exact absurd rfl
      (((delete_partition_data_events fault database table date_id _ w) _
        (mem_of_getElem?_eq hi)).2 db' tbl' v' loc')
  · rw [heq, List.getElem?_append_right (le_refl _)] at hi
    simp at hi
  · refine ⟨_, hgt,
      (parse_s3_path (get_s3_path bucket_name database table ++ "/date_id=" ++
        date_id ++ "/data.parquet")).1,
      (parse_s3_path (get_s3_path bucket_name database table ++ "/date_id=" ++
        date_id ++ "/data.parquet")).2, content, ?_⟩
    rw [List.getElem?_append_right (le_refl _)]
    simp

/-- Witness for C1: with the catalog partition-creation call faulted, the
sample publish still leaves the correct parquet content at the canonical
data path. -/
theorem publish_partition_registration_after_write_witness :
    sample_data.empty = false ∧
    s3_lookup "bkt" "db/tbl/date_id=2024-01-01/data.parquet"
      (duck_db_parquet_delete_and_insert partition_fault "bkt" "db" "tbl"
        "2024-01-01" sample_data (some sample_schema) sample_world).world.s3 =
      some ⟨["city", "temperature"], sample_data.rows⟩ :=
  ⟨by decide,
    (publish_partition_registration_after_write partition_fault "bkt" "db" "tbl"
      "2024-01-01" sample_data (some sample_schema) sample_world
      ⟨["city", "temperature"], sample_data.rows⟩ "bkt"
      "db/tbl/date_id=2024-01-01/data.parquet"
      (by decide) (by decide) (by decide)).2⟩

/-- C4 counterexample: a fault that fails exactly the catalog
partition-creation call after a successful storage write does NOT make
the call raise: it returns normally (the error is swallowed into a
printed warning) even though the catalog was left without the partition
entry — refuting the claim that the error propagates to the caller. -/
theorem catalog_error_not_propagated_cex :
    (duck_db_parquet_delete_and_insert partition_fault "bkt" "db" "tbl" "2024-01-01"
      sample_data (some sample_schema) sample_world).ret = .ok () ∧
    alookup ("db", "tbl", "2024-01-01")
      (duck_db_parquet_delete_and_insert partition_fault "bkt" "db" "tbl"
        "2024-01-01" sample_data (some sample_schema)
        sample_world).world.glue.partitions = none := by
  decide

/-- C4 amended: when the storage write succeeds and catalog calls fail
under any fault oracle, the publish call still returns normally — the
catalog error is caught inside the call and only reported as a warning —
and the file already written at the canonical partition path is kept,
never rolled back or deleted. -/
theorem catalog_failure_swallowed_file_kept (fault : CatOp → Bool)
    (bucket_name database table date_id : String) (data : DataFrame)
    (schema : Option Schema) (w : World) (content : DataFrame) (B K : String)
    (hne : data.empty = false)
    (hw : duckdb_write_content data schema = .ok content)
    (hdp : parse_s3_path (get_s3_path bucket_name database table ++ "/date_id=" ++
      date_id ++ "/data.parquet") = (B, K)) :
    (duck_db_parquet_delete_and_insert fault bucket_name database table date_id data
      schema w).ret = .ok () ∧
    s3_lookup B K
      (duck_db_parquet_delete_and_insert fault bucket_name database table date_id data
        schema w).world.s3 = some content :=
  publish_ok_outcome fault bucket_name database table date_id data schema w content
    B K hne hw hdp

/-- Witness for C4's amended claim at the faulted sample run. -/
theorem catalog_failure_swallowed_file_kept_witness :
    sample_data.empty = false ∧
    (duck_db_parquet_delete_and_insert partition_fault "bkt" "db" "tbl" "2024-01-01"
      sample_data (some sample_schema) sample_world).ret = .ok () :=
  ⟨by decide,
    (catalog_failure_swallowed_file_kept partition_fault "bkt" "db" "tbl"
      "2024-01-01" sample_data (some sample_schema) sample_world
      ⟨["city", "temperature"], sample_data.rows⟩ "bkt"
      "db/tbl/date_id=2024-01-01/data.parquet"
      (by decide) (by decide) (by decide)).1⟩

/-- C6 counterexample: a successful publish call returns the unit value
of a `None`-returning Python function — the canonical storage location
and row count appear only in the prints, not in the returned value. -/
theorem publish_return_value_cex :
    (duck_db_parquet_delete_and_insert no_fault "bkt" "db" "tbl" "2024-01-01"
      sample_data (some sample_schema) sample_world).ret = .ok () ∧
    (duck_db_parquet_delete_and_insert no_fault "bkt" "db" "tbl" "2024-01-01"
      sample_data (some sample_schema) sample_world).reports =
      [.savingRows 3 "s3://bkt/db/tbl/date_id=2024-01-01/data.parquet",
        .successfullySaved "s3://bkt/db/tbl/date_id=2024-01-01/data.parquet"] := by
  decide

/-- C6 amended: a successful publish call with a non-empty dataset
returns None; the canonical storage location and the count of rows
written are communicated through the call's prints. -/
theorem publish_prints_location_and_count (fault : CatOp → Bool)
    (bucket_name database table date_id : String) (data : DataFrame)
    (schema : Option Schema) (w : World) (content : DataFrame)
    (hne : data.empty = false)
    (hw : duckdb_write_content data schema = .ok content) :
    (duck_db_parquet_delete_and_insert fault bucket_name database table date_id data
      schema w).ret = .ok () ∧
    (duck_db_parquet_delete_and_insert fault bucket_name database table date_id data
      schema w).reports =
      [.savingRows data.rows.length (get_s3_path bucket_name database table ++
          "/date_id=" ++ date_id ++ "/data.parquet"),
        .successfullySaved (get_s3_path bucket_name database table ++
          "/date_id=" ++ date_id ++ "/data.parquet")] := by
  rw [publish_unfold_ok fault bucket_name database table date_id data schema w
    content hne hw]
  exact ⟨rfl, rfl⟩

/-- Witness for C6's amended claim at the sample run. -/
theorem publish_prints_location_and_count_witness :
    sample_data.empty = false ∧
    (duck_db_parquet_delete_and_insert no_fault "bkt" "db" "tbl" "2024-01-01"
      sample_data (some sample_schema) sample_world).reports =
      [.savingRows sample_data.rows.length (get_s3_path "bkt" "db" "tbl" ++
          "/date_id=" ++ "2024-01-01" ++ "/data.parquet"),
        .successfullySaved (get_s3_path "bkt" "db" "tbl" ++
          "/date_id=" ++ "2024-01-01" ++ "/data.parquet")] :=
  ⟨by decide,
    (publish_prints_location_and_count no_fault "bkt" "db" "tbl" "2024-01-01"
      sample_data (some sample_schema) sample_world
      ⟨["city", "temperature"], sample_data.rows⟩ (by decide) (by decide)).2⟩

/-- C2 counterexample: publishing a zero-row dataset for key 2024-01-01,
which previously had both a storage file and a catalog partition, leaves
the world completely unchanged: the old file and the old catalog
partition entry are still there, refuting the claim that they are
removed before the "empty, nothing written" result. -/
theorem empty_publish_removes_nothing_cex :
    (duck_db_parquet_delete_and_insert no_fault "bkt" "db" "tbl" "2024-01-01"
      empty_data (some sample_schema) sample_world).world = sample_world ∧
    s3_lookup "bkt" "db/tbl/date_id=2024-01-01/data.parquet" sample_world.s3 =
      some stale_content ∧
    alookup ("db", "tbl", "2024-01-01") sample_world.glue.partitions =
      some "s3://bkt/db/tbl/date_id=2024-01-01" := by
  decide

/-- C2 amended: a publish call with an empty dataset returns immediately
with the "empty, nothing written" report, performing no deletion at all:
the world (old storage objects and old catalog partition entry included)
is left exactly unchanged and no backend call is made. -/
theorem empty_publish_leaves_state_unchanged (fault : CatOp → Bool)
    (bucket_name database table date_id : String) (data : DataFrame)
    (schema : Option Schema) (w : World)
    (he : data.empty = true) :
    (duck_db_parquet_delete_and_insert fault bucket_name database table date_id data
      schema w).world = w ∧
    (duck_db_parquet_delete_and_insert fault bucket_name database table date_id data
      schema w).ret = .ok () ∧
    (duck_db_parquet_delete_and_insert fault bucket_name database table date_id data
      schema w).events = [] ∧
    (duck_db_parquet_delete_and_insert fault bucket_name database table date_id data
      schema w).reports = [.noDataToInsert] := by
  rw [publish_unfold_empty fault bucket_name database table date_id data schema w he]
  exact ⟨rfl, rfl, rfl, rfl⟩

/-- Witness for C2's amended claim: the empty sample publish leaves the
sample world untouched. -/
theorem empty_publish_leaves_state_unchanged_witness :
    empty_data.empty = true ∧
    (duck_db_parquet_delete_and_insert no_fault "bkt" "db" "tbl" "2024-01-01"
      empty_data (some sample_schema) sample_world).world = sample_world :=
  ⟨by decide,
    (empty_publish_leaves_state_unchanged no_fault "bkt" "db" "tbl" "2024-01-01"
      empty_data (some sample_schema) sample_world (by decide)).1⟩

/-- C3 counterexample: publishing a dataset missing the required
`temperature` column does fail with the binder (schema-mismatch) error,
but the pre-existing storage object and catalog partition entry for the
key — present in the initial world — have been deleted by the time of
the failure, refuting "no deletion is performed before the failure". -/
theorem schema_mismatch_after_deletion_cex :
    (duck_db_parquet_delete_and_insert no_fault "bkt" "db" "tbl" "2024-01-01"
      narrow_data (some sample_schema) sample_world).ret =
      .error .binderColumnCountMismatch ∧
    s3_lookup "bkt" "db/tbl/date_id=2024-01-01/data.parquet" sample_world.s3 =
      some stale_content ∧
    s3_lookup "bkt" "db/tbl/date_id=2024-01-01/data.parquet"
      (duck_db_parquet_delete_and_insert no_fault "bkt" "db" "tbl" "2024-01-01"
        narrow_data (some sample_schema) sample_world).world.s3 = none ∧
    alookup ("db", "tbl", "2024-01-01") sample_world.glue.partitions =
      some "s3://bkt/db/tbl/date_id=2024-01-01" ∧
    alookup ("db", "tbl", "2024-01-01")
      (duck_db_parquet_delete_and_insert no_fault "bkt" "db" "tbl" "2024-01-01"
        narrow_data (some sample_schema) sample_world).world.glue.partitions =
      none := by
  decide

/-- C3 amended: publishing a non-empty dataset whose column count differs
from the supplied schema's (e.g. a required column is missing and no
extra takes its place) fails with the schema-mismatch binder error and no
file is written, but the pre-existing storage objects and catalog
partition entry for the key have already been deleted before the failure
(the final state is exactly the post-deletion state). -/
theorem schema_mismatch_fails_after_delete (fault : CatOp → Bool)
    (bucket_name database table date_id : String) (data : DataFrame)
    (sch : Schema) (w : World)
    (hne : data.empty = false)
    (hs : ¬sch.isEmpty = true)
    (hlen : ¬data.columns.length = sch.length) :
    (duck_db_parquet_delete_and_insert fault bucket_name database table date_id data
      (some sch) w).ret = .error .binderColumnCountMismatch ∧
    (duck_db_parquet_delete_and_insert fault bucket_name database table date_id data
      (some sch) w).world =
      (delete_partition_data fault database table date_id
        (get_s3_path bucket_name database table ++ "/date_id=" ++ date_id) w).1 ∧
    ∀ (b k : String) (c : DataFrame),
      Event.s3Write b k c ∉
        (duck_db_parquet_delete_and_insert fault bucket_name database table date_id
          data (some sch) w).events := by
  have hw : duckdb_write_content data (some sch) = .error .binderColumnCountMismatch := by
    unfold duckdb_write_content
    dsimp only
    rw [if_neg hs, if_neg hlen]
  rw [publish_unfold_err fault bucket_name database table date_id data (some sch) w
    .binderColumnCountMismatch hne hw]
  dsimp only
  refine ⟨rfl, rfl, ?_⟩
  intro b k c hmem
  exact ((delete_partition_data_events fault database table date_id _ w) _ hmem).1
    b k c rfl

/-- Witness for C3's amended claim at the sample mismatching dataset. -/
theorem schema_mismatch_fails_after_delete_witness :
    narrow_data.empty = false ∧
    (duck_db_parquet_delete_and_insert no_fault "bkt" "db" "tbl" "2024-01-01"
      narrow_data (some sample_schema) sample_world).ret =
      .error .binderColumnCountMismatch :=
  ⟨by decide,
    (schema_mismatch_fails_after_delete no_fault "bkt" "db" "tbl" "2024-01-01"
      narrow_data sample_schema sample_world (by decide) (by decide) (by decide)).1⟩

/-- C7 counterexample: publishing against a catalog whose table exists
with an incompatible column set (single column `x` against the schema's
`city`/`temperature`) raises nothing — the call returns normally and the
conflicting table definition is left exactly as it was, refuting the
claimed SchemaConflict failure. -/
theorem schema_conflict_not_raised_cex :
    (duck_db_parquet_delete_and_insert no_fault "bkt" "db" "tbl" "2024-01-01"
      sample_data (some sample_schema) conflict_world).ret = .ok () ∧
    alookup ("db", "tbl")
      (duck_db_parquet_delete_and_insert no_fault "bkt" "db" "tbl" "2024-01-01"
        sample_data (some sample_schema) conflict_world).world.glue.tables =
      some ⟨[("x", "string")], "s3://bkt/db/tbl", [("date_id", "string")]⟩ := by
  decide

/-- C7 amended: when the catalog table already exists, the
table-registration step performs no compatibility check at all: whatever
its column set, the existing definition is left untouched and the call
raises no error, under every fault oracle. -/
theorem existing_table_left_untouched (fault : CatOp → Bool)
    (bucket_name database table date_id : String) (data : DataFrame)
    (schema : Option Schema) (w : World) (content : DataFrame)
    (info : GlueTableInfo)
    (hne : data.empty = false)
    (hw : duckdb_write_content data schema = .ok content)
    (ht : alookup (database, table) w.glue.tables = some info) :
    (duck_db_parquet_delete_and_insert fault bucket_name database table date_id data
      schema w).ret = .ok () ∧
    alookup (database, table)
      (duck_db_parquet_delete_and_insert fault bucket_name database table date_id
        data schema w).world.glue.tables = some info := by
  rw [publish_unfold_ok fault bucket_name database table date_id data schema w
    content hne hw]
  dsimp only
  refine ⟨rfl, ?_⟩
  have ht' : alookup (database, table)
      (delete_partition_data fault database table date_id
        (get_s3_path bucket_name database table ++ "/date_id=" ++ date_id)
        w).1.glue.tables = some info := by
    show alookup (database, table)
      (glue_delete_phase fault database table date_id w.glue).1.tables = some info
    rw [(glue_delete_phase_frame fault database table date_id w.glue).1]
    exact ht
  exact register_in_glue_tables_present fault database table date_id schema _ _ _
    info ht'

/-- Witness for C7's amended claim at the conflicting sample world. -/
theorem existing_table_left_untouched_witness :
    sample_data.empty = false ∧
    alookup ("db", "tbl")
      (duck_db_parquet_delete_and_insert no_fault "bkt" "db" "tbl" "2024-01-01"
        sample_data (some sample_schema) conflict_world).world.glue.tables =
      some ⟨[("x", "string")], "s3://bkt/db/tbl", [("date_id", "string")]⟩ :=
  ⟨by decide,
    (existing_table_left_untouched no_fault "bkt" "db" "tbl" "2024-01-01"
      sample_data (some sample_schema) conflict_world
      ⟨["city", "temperature"], sample_data.rows⟩
      ⟨[("x", "string")], "s3://bkt/db/tbl", [("date_id", "string")]⟩
      (by decide) (by decide) (by decide)).2⟩

/-- C8 counterexample: publishing a non-empty dataset with no schema
argument against a catalog with no table entry does NOT create the
table: the call succeeds but the table entry is still absent, refuting
"whether or not an explicit schema argument is supplied". -/
theorem table_not_created_without_schema_cex :
    (duck_db_parquet_delete_and_insert no_fault "bkt" "db" "tbl" "2024-01-01"
      sample_data none no_table_world).ret = .ok () ∧
    alookup ("db", "tbl")
      (duck_db_parquet_delete_and_insert no_fault "bkt" "db" "tbl" "2024-01-01"
        sample_data none no_table_world).world.glue.tables = none := by
  decide

/-- C8 amended: in a fault-free publish of a non-empty dataset with the
catalog table entry absent, the table is created exactly when a truthy
schema argument is supplied — and then with the schema's glue-mapped
columns, the single `date_id` string partition key and the table's
canonical storage root as location; with no (or an empty) schema, no
table entry is created. -/
theorem table_creation_requires_schema (bucket_name database table date_id : String)
    (data : DataFrame) (schema : Option Schema) (w : World) (content : DataFrame)
    (hne : data.empty = false)
    (hw : duckdb_write_content data schema = .ok content)
    (ht : alookup (database, table) w.glue.tables = none) :
    alookup (database, table)
      (duck_db_parquet_delete_and_insert no_fault bucket_name database table date_id
        data schema w).world.glue.tables =
      if schema_truthy schema then
        some (new_table_info (schema.getD []) (get_s3_path bucket_name database table))
      else none := by
  rw [publish_unfold_ok no_fault bucket_name database table date_id data schema w
    content hne hw]
  dsimp only
  have ht' : alookup (database, table)
      (delete_partition_data no_fault database table date_id
        (get_s3_path bucket_name database table ++ "/date_id=" ++ date_id)
        w).1.glue.tables = none := by
    show alookup (database, table)
      (glue_delete_phase no_fault database table date_id w.glue).1.tables = none
    rw [(glue_delete_phase_frame no_fault database table date_id w.glue).1]
    exact ht
  exact register_in_glue_tables_absent database table date_id schema _ _ _ ht'

/-- Witness for C8's amended claim: with the sample schema supplied and
no table entry, the publish creates the glue table registration. -/
theorem table_creation_requires_schema_witness :
    sample_data.empty = false ∧
    alookup ("db", "tbl")
      (duck_db_parquet_delete_and_insert no_fault "bkt" "db" "tbl" "2024-01-01"
        sample_data (some sample_schema) no_table_world).world.glue.tables =
      (if schema_truthy (some sample_schema) then
        some (new_table_info ((some sample_schema).getD [])
          (get_s3_path "bkt" "db" "tbl"))
      else none) :=
  ⟨by decide,
    table_creation_requires_schema "bkt" "db" "tbl" "2024-01-01" sample_data
      (some sample_schema) no_table_world ⟨["city", "temperature"], sample_data.rows⟩
      (by decide) (by decide) (by decide)⟩

theorem mem_of_alookup_some {α β : Type} [DecidableEq α] {k : α} {v : β}
    {l : List (α × β)} (h : alookup k l = some v) : (k, v) ∈ l := by
  induction l with
  | nil => simp [alookup] at h
  | cons e es ih =>
    by_cases he : e.1 = k
    · rw [alookup, if_pos he] at h
      have h2 : e.2 = v := by
        injection h
      have he2 : e = (k, v) := Prod.ext he h2
      rw [← he2]
      exact List.mem_cons_self _ _
    · rw [alookup, if_neg he] at h
      exact List.mem_cons_of_mem _ (ih h)

theorem glue_wf_key_local {g : GlueState} {db tbl did : String}
    (hwf : glue_wf g = true)
    (htn : alookup (db, tbl) g.tables = none) :
    alookup (db, tbl, did) g.partitions = none := by
  unfold glue_wf at hwf
  cases hp : alookup (db, tbl, did) g.partitions with
  | none => rfl
  | some loc =>
    have hm := mem_of_alookup_some hp
    have hall := (List.all_eq_true.mp hwf) _ hm
    dsimp only at hall
    rw [htn] at hall
    simp at hall

theorem publish_once_ok_spec (bucket_name database table date_id : String)
    (data : DataFrame) (schema : Option Schema) (w : World) (content : DataFrame)
    (B K : String)
    (hdp : parse_s3_path (get_s3_path bucket_name database table ++ "/date_id=" ++
      date_id ++ "/data.parquet") = (B, K))
    (hne : data.empty = false)
    (hw : duckdb_write_content data schema = .ok content)
    (hwk : alookup (database, table) w.glue.tables = none →
      alookup (database, table, date_id) w.glue.partitions = none) :
    s3_lookup B K
      (duck_db_parquet_delete_and_insert no_fault bucket_name database table date_id
        data schema w).world.s3 = some content ∧
    alookup (database, table, date_id)
      (duck_db_parquet_delete_and_insert no_fault bucket_name database table date_id
        data schema w).world.glue.partitions =
      (if ((alookup (database, table) w.glue.tables).isSome || schema_truthy schema)
        then some (get_s3_path bucket_name database table ++ "/date_id=" ++ date_id)
        else none) ∧
    (alookup (database, table)
      (duck_db_parquet_delete_and_insert no_fault bucket_name database table date_id
        data schema w).world.glue.tables).isSome =
      ((alookup (database, table) w.glue.tables).isSome || schema_truthy schema) := by
  rw [publish_unfold_ok no_fault bucket_name database table date_id data schema w
    content hne hw]
  dsimp only
  have hdelp : alookup (database, table, date_id)
      (delete_partition_data no_fault database table date_id
        (get_s3_path bucket_name database table ++ "/date_id=" ++ date_id)
        w).1.glue.partitions = none := by
    show alookup (database, table, date_id)
      (glue_delete_phase no_fault database table date_id w.glue).1.partitions = none
    exact glue_delete_phase_target database table date_id w.glue hwk
  have hdelt : alookup (database, table)
      (delete_partition_data no_fault database table date_id
        (get_s3_path bucket_name database table ++ "/date_id=" ++ date_id)
        w).1.glue.tables = alookup (database, table) w.glue.tables := by
    show alookup (database, table)
      (glue_delete_phase no_fault database table date_id w.glue).1.tables =
      alookup (database, table) w.glue.tables
    rw [(glue_delete_phase_frame no_fault database table date_id w.glue).1]
  refine ⟨?_, ?_, ?_⟩
  · rw [hdp, s3_lookup_write]
    simp
  · rw [register_in_glue_target database table date_id schema _ _ _ hdelp, hdelt]
  · rw [register_in_glue_tables_isSome database table date_id schema _ _ _, hdelt]

theorem publish_once_err_spec (bucket_name database table date_id : String)
    (data : DataFrame) (schema : Option Schema) (w : World) (e : PubErr)
    (B P K : String)
    (hpp : parse_s3_path (get_s3_path bucket_name database table ++ "/date_id=" ++
      date_id) = (B, P))
    (hpk : str_starts_with P K = true)
    (hne : data.empty = false)
    (hw : duckdb_write_content data schema = .error e)
    (hwk : alookup (database, table) w.glue.tables = none →
      alookup (database, table, date_id) w.glue.partitions = none) :
    s3_lookup B K
      (duck_db_parquet_delete_and_insert no_fault bucket_name database table date_id
        data schema w).world.s3 = none ∧
    alookup (database, table, date_id)
      (duck_db_parquet_delete_and_insert no_fault bucket_name database table date_id
        data schema w).world.glue.partitions = none ∧
    (duck_db_parquet_delete_and_insert no_fault bucket_name database table date_id
      data schema w).world.glue.tables = w.glue.tables := by
  rw [publish_unfold_err no_fault bucket_name database table date_id data schema w
    e hne hw]
  dsimp only
  refine ⟨?_, ?_, ?_⟩
  · show s3_lookup B K
      (s3_delete_phase
        (parse_s3_path (get_s3_path bucket_name database table ++ "/date_id=" ++
          date_id)).1
        (parse_s3_path (get_s3_path bucket_name database table ++ "/date_id=" ++
          date_id)).2 w.s3).1 = none
    rw [hpp, s3_lookup_delete_phase]
    simp [hpk]
  · show alookup (database, table, date_id)
      (glue_delete_phase no_fault database table date_id w.glue).1.partitions = none
    exact glue_delete_phase_target database table date_id w.glue hwk
  · show (glue_delete_phase no_fault database table date_id w.glue).1.tables =
      w.glue.tables
    exact (glue_delete_phase_frame no_fault database table date_id w.glue).1

/-- C5: publishing is idempotent. For every (database, table, partition
key, dataset, schema) and every initial storage/catalog state satisfying
the catalog's representation invariant (partitions live under existing
tables), running the fault-free publish twice in succession leaves the
same storage content at the canonical partition data path and the same
catalog partition location as running it once. -/
theorem publish_idempotent (bucket_name database table date_id : String)
    (data : DataFrame) (schema : Option Schema) (w : World) (B P K : String)
    (hpp : parse_s3_path (get_s3_path bucket_name database table ++ "/date_id=" ++
      date_id) = (B, P))
    (hdp : parse_s3_path (get_s3_path bucket_name database table ++ "/date_id=" ++
      date_id ++ "/data.parquet") = (B, K))
    (hpk : str_starts_with P K = true)
    (hwf : glue_wf w.glue = true) :
    s3_lookup B K
      (duck_db_parquet_delete_and_insert no_fault bucket_name database table date_id
        data schema
        ((duck_db_parquet_delete_and_insert no_fault bucket_name database table
          date_id data schema w).world)).world.s3 =
      s3_lookup B K
        (duck_db_parquet_delete_and_insert no_fault bucket_name database table
          date_id data schema w).world.s3 ∧
    alookup (database, table, date_id)
      (duck_db_parquet_delete_and_insert no_fault bucket_name database table date_id
        data schema
        ((duck_db_parquet_delete_and_insert no_fault bucket_name database table
          date_id data schema w).world)).world.glue.partitions =
      alookup (database, table, date_id)
        (duck_db_parquet_delete_and_insert no_fault bucket_name database table
          date_id data schema w).world.glue.partitions := by
  have hwk : alookup (database, table) w.glue.tables = none →
      alookup (database, table, date_id) w.glue.partitions = none :=
    fun htn => glue_wf_key_local hwf htn
  cases hemp : data.empty with
  | true =>
    have hv : ∀ v : World,
        (duck_db_parquet_delete_and_insert no_fault bucket_name database table
          date_id data schema v).world = v := by
      intro v
      rw [publish_unfold_empty no_fault bucket_name database table date_id data
        schema v hemp]
    simp only [hv, and_self]
  | false =>
    cases hw : duckdb_write_content data schema with
    | ok content =>
      have h1 := publish_once_ok_spec bucket_name database table date_id data
        schema w content B K hdp hemp hw hwk
      have hwk1 : alookup (database, table)
          (duck_db_parquet_delete_and_insert no_fault bucket_name database table
            date_id data schema w).world.glue.tables = none →
          alookup (database, table, date_id)
            (duck_db_parquet_delete_and_insert no_fault bucket_name database table
              date_id data schema w).world.glue.partitions = none := by
        intro ht1
        have hc : ((alookup (database, table) w.glue.tables).isSome ||
            schema_truthy schema) = false := by
          rw [← h1.2.2, ht1]
          rfl
        rw [h1.2.1, hc]
        simp
      have h2 := publish_once_ok_spec bucket_name database table date_id data
        schema
        ((duck_db_parquet_delete_and_insert no_fault bucket_name database table
          date_id data schema w).world) content B K hdp hemp hw hwk1
      refine ⟨?_, ?_⟩
      · rw [h2.1, h1.1]
      · rw [h2.2.1, h1.2.1, h1.2.2, Bool.or_assoc, Bool.or_self]
    | error e =>
      have h1 := publish_once_err_spec bucket_name database table date_id data
        schema w e B P K hpp hpk hemp hw hwk
      have hwk1 : alookup (database, table)
          (duck_db_parquet_delete_and_insert no_fault bucket_name database table
            date_id data schema w).world.glue.tables = none →
          alookup (database, table, date_id)
            (duck_db_parquet_delete_and_insert no_fault bucket_name database table
              date_id data schema w).world.glue.partitions = none :=
        fun _ => h1.2.1
      have h2 := publish_once_err_spec bucket_name database table date_id data
        schema
        ((duck_db_parquet_delete_and_insert no_fault bucket_name database table
          date_id data schema w).world) e B P K hpp hpk hemp hw hwk1
      exact ⟨by rw [h2.1, h1.1], by rw [h2.2.1, h1.2.1]⟩

/-- Witness for C5: the double sample publish agrees with the single one
at the canonical data path and the catalog partition entry. -/
theorem publish_idempotent_witness :
    glue_wf sample_world.glue = true ∧
    alookup ("db", "tbl", "2024-01-01")
      (duck_db_parquet_delete_and_insert no_fault "bkt" "db" "tbl" "2024-01-01"
        sample_data (some sample_schema)
        ((duck_db_parquet_delete_and_insert no_fault "bkt" "db" "tbl" "2024-01-01"
          sample_data (some sample_schema)
          sample_world).world)).world.glue.partitions =
      alookup ("db", "tbl", "2024-01-01")
        (duck_db_parquet_delete_and_insert no_fault "bkt" "db" "tbl" "2024-01-01"
          sample_data (some sample_schema) sample_world).world.glue.partitions :=
  ⟨by decide,
    (publish_idempotent "bkt" "db" "tbl" "2024-01-01" sample_data
      (some sample_schema) sample_world "bkt" "db/tbl/date_id=2024-01-01"
      "db/tbl/date_id=2024-01-01/data.parquet"
      (by decide) (by decide) (by decide) (by decide)).2⟩

example : schema_truthy (some []) = false := by decide

example :
    (duck_db_parquet_delete_and_insert no_fault "bkt" "db" "tbl" "2024-01-01"
      sample_data (some sample_schema) sample_world).ret = .ok () := by decide

example :
    s3_lookup "bkt" "db/tbl/date_id=2024-01-01/data.parquet"
      (duck_db_parquet_delete_and_insert no_fault "bkt" "db" "tbl" "2024-01-01"
        sample_data (some sample_schema) sample_world).world.s3 =
      some ⟨["city", "temperature"], sample_data.rows⟩ := by decide

example :
    alookup ("db", "tbl", "2024-01-01")
      (duck_db_parquet_delete_and_insert no_fault "bkt" "db" "tbl" "2024-01-01"
        sample_data (some sample_schema) sample_world).world.glue.partitions =
      some "s3://bkt/db/tbl/date_id=2024-01-01" := by decide
example : parse_s3_path "s3://bkt/db/tbl/date_id=2024-01-01" =
    ("bkt", "db/tbl/date_id=2024-01-01") := by decide
example : parse_s3_path "s3://bkt" = ("bkt", "") := by decide
